import Mathlib

/-!
Shallow embedding of the `cw-token` repository (apollodao/cw-token), file
`src/implementations/osmosis.rs`, together with theorems checking the
natural-language specification against it.

Modelling conventions:
* `Uint128` amounts are `Nat` (the operations here only carry amounts
  through; no arithmetic overflows occur).
* `StdError::generic_err(msg)` is modelled as the message string, so a
  `StdResult<T>` is `Except String T`.
* The protobuf payload of a `CosmosMsg::Stargate` message is kept in
  structured form (the `MsgMint` / `MsgBurn` value that the source passes
  to `encode`); the wire encoding itself is an external collaborator and
  out of scope per the spec.
* `QuerierWrapper` is modelled as a function from (address, denom) to the
  environment's fallible balance lookup result.
-/

namespace CwToken

/-- `cosmwasm_std::Coin`: a bank coin with denom and `Uint128` amount. -/
structure Coin where
  denom : String
  amount : Nat
deriving DecidableEq, Repr

/-- `apollo_proto_rust::cosmos::base::v1beta1::Coin` (`CoinMsg` in the
source): a protobuf coin whose amount is a decimal string
(`amount.to_string()` in the source). -/
structure CoinMsg where
  denom : String
  amount : String
deriving DecidableEq, Repr

/-- `apollo_proto_rust::osmosis::tokenfactory::v1beta1::MsgMint`. -/
structure MsgMint where
  amount : Option CoinMsg
  sender : String
deriving DecidableEq, Repr

/-- `apollo_proto_rust::osmosis::tokenfactory::v1beta1::MsgBurn`. -/
structure MsgBurn where
  amount : Option CoinMsg
  sender : String
deriving DecidableEq, Repr

/-- The structured payloads this module encodes into `Stargate` messages. -/
inductive StargatePayload where
  | mint : MsgMint → StargatePayload
  | burn : MsgBurn → StargatePayload
deriving DecidableEq, Repr

/-- `cosmwasm_std::BankMsg` (only the `Send` variant is used here). -/
inductive BankMsg where
  | Send : String → List Coin → BankMsg
deriving DecidableEq, Repr

/-- `OsmosisTypeURLs::Mint.to_string()` — value taken from the external
`apollo_proto_rust` crate (out of scope per the spec); the claims only
depend on it tagging module-mint instructions. -/
def osmosisTypeURLMint : String := "/osmosis.tokenfactory.v1beta1.MsgMint"

/-- `OsmosisTypeURLs::Burn.to_string()` — value taken from the external
`apollo_proto_rust` crate; the claims only depend on it tagging
module-burn instructions. -/
def osmosisTypeURLBurn : String := "/osmosis.tokenfactory.v1beta1.MsgBurn"

/-- `cosmwasm_std::CosmosMsg`, restricted to the variants this module
emits: `Stargate { type_url, value }` and `Bank`. -/
inductive CosmosMsg where
  | Stargate : String → StargatePayload → CosmosMsg
  | Bank : BankMsg → CosmosMsg
deriving DecidableEq, Repr

/-- `cosmwasm_std::Response`, reduced to its message list (the only part
this module builds: `Response::new().add_message(s)/add_messages`). -/
structure Response where
  messages : List CosmosMsg
deriving DecidableEq, Repr

/-- `cw_asset::AssetInfo` (checked): native denom, Cw20 contract address,
or Cw1155 (contract address, token id). Addresses are strings here. -/
inductive AssetInfo where
  | Native : String → AssetInfo
  | Cw20 : String → AssetInfo
  | Cw1155 : String → String → AssetInfo
deriving DecidableEq, Repr

/-- `pub struct OsmosisDenom(pub String)` from
`src/implementations/osmosis.rs`. -/
structure OsmosisDenom where
  denom : String
deriving DecidableEq, Repr

/-- `impl From<OsmosisDenom> for AssetInfo`: wraps the denom string as a
native asset info. -/
def assetInfoFromOsmosisDenom (d : OsmosisDenom) : AssetInfo :=
  AssetInfo.Native d.denom

/-- Splitting a character list at every occurrence of the separator
character `c`: the semantics of Rust's `str::split` with a `char`
pattern, on the string's character sequence. The empty input yields
`[[]]`, matching `"".split(c) == [""]`; the result is always
non-empty. -/
def splitChar (c : Char) : List Char → List (List Char)
  | [] => [[]]
  | x :: xs =>
      if x = c then
        [] :: splitChar c xs
      else
        match splitChar c xs with
        | [] => [[x]]
        | r :: rs => (x :: r) :: rs

/-- Rust's `s.split(c).collect::<Vec<&str>>()` on a Lean string: split
the character list and re-pack each piece as a string. -/
def rustSplit (c : Char) (s : String) : List String :=
  (splitChar c s.toList).map (fun l => String.mk l)

/-- `impl TryFrom<AssetInfo> for OsmosisDenom` (osmosis.rs lines 35-55):
Cw20 and Cw1155 are rejected; a native denom is split on `'/'` and
accepted iff it has exactly 3 parts with part 0 equal to `"factory"`.
`parts[0]` is `parts.headD ""` here; `rustSplit` never returns the empty
list, so this is the same element. -/
def osmosisDenomTryFrom (asset_info : AssetInfo) : Except String OsmosisDenom :=
  match asset_info with
  | AssetInfo.Cw20 _ =>
      Except.error "Cannot convert Cw20 asset to OsmosisDenom."
  | AssetInfo.Native denom =>
      let parts : List String := rustSplit '/' denom
      if parts.length ≠ 3 ∨ parts.headD "" ≠ "factory" then
        Except.error "Invalid denom for OsmosisDenom."
      else
        Except.ok (OsmosisDenom.mk denom)
  | AssetInfo.Cw1155 _ _ =>
      Except.error "Cannot convert Cw1155 asset to OsmosisDenom."

/-- Spec-side shape rule for a structured identity: exactly 3
`/`-separated segments and segment 0 literally `"factory"`. -/
def factoryShape (s : String) : Prop :=
  (rustSplit '/' s).length = 3 ∧ (rustSplit '/' s).headD "" = "factory"

instance (s : String) : Decidable (factoryShape s) := by
  unfold factoryShape; infer_instance

/-- The error messages the conversion uses for shape / identity-kind
violations; all are `InvalidIdentity`-class errors in the spec's
taxonomy. -/
def invalidIdentityMsgs : List String :=
  ["Cannot convert Cw20 asset to OsmosisDenom.",
   "Invalid denom for OsmosisDenom.",
   "Cannot convert Cw1155 asset to OsmosisDenom."]

/-- `Token for OsmosisDenom :: transfer` (osmosis.rs lines 66-74): always
succeeds with a single `BankMsg::Send` of `amount` of the token's own
denom to `to`. No zero-amount check is performed in the source. -/
def OsmosisDenom.transfer (d : OsmosisDenom) (to_address : String) (amount : Nat) :
    Except String Response :=
  Except.ok (Response.mk
    [CosmosMsg.Bank (BankMsg.Send to_address [Coin.mk d.denom amount])])

/-- `Token for OsmosisDenom :: query_balance` (osmosis.rs lines 76-82):
`Ok(querier.query_balance(address, self.0.clone())?.amount)`. The querier
is the environment's fallible balance lookup, modelled as a function from
(address, denom) to a coin or an error. -/
def OsmosisDenom.query_balance (d : OsmosisDenom)
    (querier : String → String → Except String Coin) (address : String) :
    Except String Nat := do
  let coin ← querier address d.denom
  pure coin.amount

/-- `Mint for OsmosisDenom :: mint` (osmosis.rs lines 89-116): always
succeeds with two messages, in order: a `Stargate` module-mint of
`amount` of the token's denom with `sender` as the minting account, then
a `BankMsg::Send` of `amount` of the same denom to `recipient`. No
authorization check is performed in the source. -/
def OsmosisDenom.mint (d : OsmosisDenom) (sender recipient : String)
    (amount : Nat) : Except String Response :=
  Except.ok (Response.mk
    [CosmosMsg.Stargate osmosisTypeURLMint
      (StargatePayload.mint
        (MsgMint.mk (some (CoinMsg.mk d.denom (toString amount))) sender)),
     CosmosMsg.Bank (BankMsg.Send recipient [Coin.mk d.denom amount])])

/-- `Burn for OsmosisDenom :: burn` (osmosis.rs lines 118-131): always
succeeds with a single `Stargate` module-burn of `amount` of the token's
denom attributed to `sender`. No authorization check is performed in the
source. -/
def OsmosisDenom.burn (d : OsmosisDenom) (sender : String) (amount : Nat) :
    Except String Response :=
  Except.ok (Response.mk
    [CosmosMsg.Stargate osmosisTypeURLBurn
      (StargatePayload.burn
        (MsgBurn.mk (some (CoinMsg.mk d.denom (toString amount))) sender))])

/-- `cosmwasm_std::Attribute`: an event attribute key/value pair. -/
structure Attribute where
  key : String
  value : String
deriving DecidableEq, Repr

/-- `cosmwasm_std::Event`: an event type (`ty`) with attributes. -/
structure Event where
  ty : String
  attributes : List Attribute
deriving DecidableEq, Repr

/-- `cosmwasm_std::SubMsgResponse`, reduced to its event list (the only
part `parse_osmosis_denom_from_instantiate_event` inspects). -/
structure SubMsgResponse where
  events : List Event
deriving DecidableEq, Repr

/-- `parse_osmosis_denom_from_instantiate_event` (osmosis.rs lines
140-155): finds the first event whose `ty` is `"create_denom"` (erroring
if none), then the first of its attributes whose key is
`"new_token_denom"` (erroring if none), and returns that attribute's
value. `Iterator::find` is `List.find?`. -/
def parse_osmosis_denom_from_instantiate_event (response : SubMsgResponse) :
    Except String String :=
  match response.events.find? (fun event => event.ty == "create_denom") with
  | none => Except.error "cannot find `create_denom` event"
  | some event =>
      match event.attributes.find? (fun attr => attr.key == "new_token_denom") with
      | none => Except.error "cannot find `new_token_denom` attribute"
      | some attr => Except.ok attr.value

/-- Observer: the denoms of every coin carried by a message (bank coins
and protobuf coins alike). -/
def coinDenoms : CosmosMsg → List String
  | CosmosMsg.Bank (BankMsg.Send _ coins) => coins.map Coin.denom
  | CosmosMsg.Stargate _ (StargatePayload.mint m) =>
      (m.amount.map CoinMsg.denom).toList
  | CosmosMsg.Stargate _ (StargatePayload.burn m) =>
      (m.amount.map CoinMsg.denom).toList

/-- Observer: the (decimal-string) amounts of module-mint instructions in
a response, in order. -/
def mintInstructionAmounts (r : Response) : List String :=
  r.messages.flatMap fun m =>
    match m with
    | CosmosMsg.Stargate _ (StargatePayload.mint mm) =>
        (mm.amount.map CoinMsg.amount).toList
    | _ => []

/-- Observer: the amounts of bank-send coins in a response, in order. -/
def bankSendAmounts (r : Response) : List Nat :=
  r.messages.flatMap fun m =>
    match m with
    | CosmosMsg.Bank (BankMsg.Send _ coins) => coins.map Coin.amount
    | _ => []

/-! ## Theorems -/

/-- `rustSplit` never returns the empty list, so `parts.headD ""` really
is `parts[0]`. -/
theorem splitChar_ne_nil (c : Char) (l : List Char) : splitChar c l ≠ [] := by
  cases l with
  | nil => simp [splitChar]
  | cons x xs =>
      simp only [splitChar]
      split
      · simp
      · split <;> simp

/-- C1: converting an `AssetInfo` into an `OsmosisDenom` succeeds iff the
value is a native denom splitting into exactly 3 `/`-segments with
segment 0 literally `"factory"`; on success the wrapped string is the
input denom unchanged; every other shape (wrong segment count, wrong
first segment, Cw20, Cw1155) fails with an `InvalidIdentity`-class
error. -/
theorem osmosisDenomTryFrom_characterization (a : AssetInfo) :
    ((∃ d, osmosisDenomTryFrom a = Except.ok d) ↔
      ∃ s, a = AssetInfo.Native s ∧ factoryShape s)
    ∧ (∀ s, a = AssetInfo.Native s → factoryShape s →
      osmosisDenomTryFrom a = Except.ok (OsmosisDenom.mk s))
    ∧ ((¬ ∃ s, a = AssetInfo.Native s ∧ factoryShape s) →
      ∃ m, m ∈ invalidIdentityMsgs ∧ osmosisDenomTryFrom a = Except.error m) := by
  cases a with
  | Native s =>
      by_cases h : factoryShape s
      · have hcond :
            ¬ ((rustSplit '/' s).length ≠ 3 ∨ (rustSplit '/' s).headD "" ≠ "factory") := by
          push_neg
          exact ⟨h.1, h.2⟩
        refine ⟨?_, ?_, ?_⟩
        · simp only [osmosisDenomTryFrom, if_neg hcond]
          constructor
          · intro _
            exact ⟨s, rfl, h⟩
          · intro _
            exact ⟨OsmosisDenom.mk s, rfl⟩
        · intro t ht _
          cases ht
          simp only [osmosisDenomTryFrom, if_neg hcond]
        · intro hn
          exact absurd ⟨s, rfl, h⟩ hn
      · have hcond :
            (rustSplit '/' s).length ≠ 3 ∨ (rustSplit '/' s).headD "" ≠ "factory" := by
          by_contra hc
          push_neg at hc
          exact h ⟨hc.1, hc.2⟩
        refine ⟨?_, ?_, ?_⟩
        · simp only [osmosisDenomTryFrom, if_pos hcond]
          constructor
          · intro ⟨d, hd⟩
            cases hd
          · intro ⟨t, ht, hsh⟩
            cases ht
            exact absurd hsh h
        · intro t ht hsh
          cases ht
          exact absurd hsh h
        · intro _
          refine ⟨"Invalid denom for OsmosisDenom.", by simp [invalidIdentityMsgs], ?_⟩
          simp only [osmosisDenomTryFrom, if_pos hcond]
  | Cw20 addr =>
      refine ⟨?_, ?_, ?_⟩
      · constructor
        · intro ⟨d, hd⟩
          cases hd
        · intro ⟨t, ht, _⟩
          cases ht
      · intro t ht
        cases ht
      · intro _
        exact ⟨"Cannot convert Cw20 asset to OsmosisDenom.",
          by simp [invalidIdentityMsgs], rfl⟩
  | Cw1155 addr id =>
      refine ⟨?_, ?_, ?_⟩
      · constructor
        · intro ⟨d, hd⟩
          cases hd
        · intro ⟨t, ht, _⟩
          cases ht
      · intro t ht
        cases ht
      · intro _
        exact ⟨"Cannot convert Cw1155 asset to OsmosisDenom.",
          by simp [invalidIdentityMsgs], rfl⟩

/-- C1 witness: at the concrete inputs `"factory/creator/sub"` (valid
shape), `"factory/sub"` (2 segments) and a Cw20 identity, the
characterization evaluates as stated. -/
theorem osmosisDenomTryFrom_characterization_witness :
    osmosisDenomTryFrom (AssetInfo.Native "factory/creator/sub") =
      Except.ok (OsmosisDenom.mk "factory/creator/sub")
    ∧ (∃ m, m ∈ invalidIdentityMsgs ∧
        osmosisDenomTryFrom (AssetInfo.Native "factory/sub") = Except.error m)
    ∧ (∃ m, m ∈ invalidIdentityMsgs ∧
        osmosisDenomTryFrom (AssetInfo.Cw20 "contract") = Except.error m) :=
  ⟨(osmosisDenomTryFrom_characterization
      (AssetInfo.Native "factory/creator/sub")).2.1 _ rfl (by decide),
   (osmosisDenomTryFrom_characterization
      (AssetInfo.Native "factory/sub")).2.2
      (fun hex => by
        rcases hex with ⟨t, ht, hsh⟩
        cases ht
        exact absurd hsh (by decide)),
   (osmosisDenomTryFrom_characterization
      (AssetInfo.Cw20 "contract")).2.2
      (fun hex => by
        rcases hex with ⟨t, ht, hsh⟩
        cases ht)⟩

/-- C2: for every denom, sender, recipient and amount (zero included),
`mint` succeeds and emits exactly two messages in order: a module-mint
instruction for `amount` of the token's denom with `sender` as the
minting account, then a bank send forwarding `amount` of the same denom
to `recipient`. -/
theorem mint_emits_mint_then_send (d : OsmosisDenom)
    (sender recipient : String) (amount : Nat) :
    ∃ r, OsmosisDenom.mint d sender recipient amount = Except.ok r ∧
      r.messages =
        [CosmosMsg.Stargate osmosisTypeURLMint
          (StargatePayload.mint
            (MsgMint.mk (some (CoinMsg.mk d.denom (toString amount))) sender)),
         CosmosMsg.Bank (BankMsg.Send recipient [Coin.mk d.denom amount])] :=
  ⟨_, rfl, rfl⟩

/-- C7: for every denom, sender and amount, `burn` succeeds and emits
exactly one message: a module-burn instruction for `amount` of the
token's denom attributed to `sender`. -/
theorem burn_emits_one_module_burn (d : OsmosisDenom) (sender : String)
    (amount : Nat) :
    ∃ r, OsmosisDenom.burn d sender amount = Except.ok r ∧
      r.messages =
        [CosmosMsg.Stargate osmosisTypeURLBurn
          (StargatePayload.burn
            (MsgBurn.mk (some (CoinMsg.mk d.denom (toString amount))) sender))] :=
  ⟨_, rfl, rfl⟩

/-- C5 counterexample: at amount 0, `transfer` does NOT fail with an
`InvalidAmount` error — it succeeds and returns a send descriptor for the
zero amount, refuting the claim that zero amounts are rejected and that
no descriptor is returned for zero. -/
theorem transfer_zero_succeeds_counterexample :
    OsmosisDenom.transfer (OsmosisDenom.mk "factory/creator/sub") "recipient" 0 =
      Except.ok (Response.mk
        [CosmosMsg.Bank
          (BankMsg.Send "recipient" [Coin.mk "factory/creator/sub" 0])]) := rfl

/-- C5 (amended): `transfer` always succeeds — for every amount, zero
included — and produces exactly one ledger-send operation moving
`amount` of the token's denom to the recipient; no zero-amount check is
performed. -/
theorem transfer_emits_one_send (d : OsmosisDenom) (recipient : String)
    (amount : Nat) :
    ∃ r, OsmosisDenom.transfer d recipient amount = Except.ok r ∧
      r.messages =
        [CosmosMsg.Bank (BankMsg.Send recipient [Coin.mk d.denom amount])] :=
  ⟨_, rfl, rfl⟩

/-- C4: a checked module-synthetic identity (an `OsmosisDenom` whose
string passed the 3-segment `factory` shape validation) converts into a
generic `AssetInfo` and back through validation to an identity equal to
the original. -/
theorem osmosisDenom_roundtrip (d : OsmosisDenom) (h : factoryShape d.denom) :
    osmosisDenomTryFrom (assetInfoFromOsmosisDenom d) = Except.ok d := by
  have hcond :
      ¬ ((rustSplit '/' d.denom).length ≠ 3 ∨
        (rustSplit '/' d.denom).headD "" ≠ "factory") := by
    push_neg
    exact ⟨h.1, h.2⟩
  cases d
  simp only [assetInfoFromOsmosisDenom, osmosisDenomTryFrom, if_neg hcond]

/-- C4 witness: the round trip at the concrete checked identity
`"factory/creator/sub"`. -/
theorem osmosisDenom_roundtrip_witness :
    factoryShape "factory/creator/sub" ∧
    osmosisDenomTryFrom
        (assetInfoFromOsmosisDenom (OsmosisDenom.mk "factory/creator/sub")) =
      Except.ok (OsmosisDenom.mk "factory/creator/sub") :=
  ⟨by decide, osmosisDenom_roundtrip (OsmosisDenom.mk "factory/creator/sub") (by decide)⟩

/-- C6: evaluation at the failing input. The source performs no
authorization check in `mint` or `burn` (and `OsmosisDenom` records no
admin address at all): two distinct senders — at most one of which could
be a recorded admin — both succeed on mint and on burn, instead of the
non-admin failing with `Unauthorized`. -/
theorem mint_burn_no_admin_check :
    (∃ r, OsmosisDenom.mint (OsmosisDenom.mk "factory/creator/sub")
      "not_the_admin" "recipient" 1 = Except.ok r)
    ∧ (∃ r, OsmosisDenom.mint (OsmosisDenom.mk "factory/creator/sub")
      "someone_else" "recipient" 1 = Except.ok r)
    ∧ (∃ r, OsmosisDenom.burn (OsmosisDenom.mk "factory/creator/sub")
      "not_the_admin" 1 = Except.ok r)
    ∧ (∃ r, OsmosisDenom.burn (OsmosisDenom.mk "factory/creator/sub")
      "someone_else" 1 = Except.ok r)
    ∧ "not_the_admin" ≠ "someone_else" :=
  ⟨⟨_, rfl⟩, ⟨_, rfl⟩, ⟨_, rfl⟩, ⟨_, rfl⟩, by decide⟩

/-- C8: `query_balance` is a pure read — it emits no operation
descriptors (its result is a bare amount, not a `Response`) and returns
exactly what the environment's balance lookup reports for the token's
denom at the queried address, failing exactly when the lookup itself
errors, with the lookup's own error. -/
theorem query_balance_reports_env_lookup (d : OsmosisDenom)
    (querier : String → String → Except String Coin) (address : String) :
    OsmosisDenom.query_balance d querier address =
      (querier address d.denom).map Coin.amount := by
  unfold OsmosisDenom.query_balance
  cases querier address d.denom <;> rfl

/-- First-match lemma for `List.find?`: with no match in the prefix and a
match at `x`, the find returns `x`, whatever follows. -/
theorem find?_append_first {α : Type} (p : α → Bool) (pre : List α) (x : α)
    (post : List α) (hpre : ∀ y ∈ pre, p y = false) (hx : p x = true) :
    (pre ++ x :: post).find? p = some x := by
  induction pre with
  | nil =>
      simp [List.find?_cons_of_pos, hx]
  | cons a as ih =>
      have ha : p a = false := hpre a (by simp)
      rw [List.cons_append, List.find?_cons_of_neg _ (by simp [ha])]
      exact ih (fun y hy => hpre y (by simp [hy]))

/-- C3 counterexample: an acknowledgment whose event list DOES contain a
`create_denom` event carrying a `new_token_denom` attribute (the second
event), yet the parser fails — because the first `create_denom` event
lacks the attribute — refuting the claim that the parser returns the
attribute value whenever the list contains such an event. -/
theorem parse_ack_existential_counterexample :
    ((SubMsgResponse.mk
        [Event.mk "create_denom" [],
         Event.mk "create_denom"
           [Attribute.mk "new_token_denom" "factory/creator/sub"]]).events.any
      (fun e => e.ty == "create_denom" &&
        e.attributes.any (fun a => a.key == "new_token_denom")) = true)
    ∧ parse_osmosis_denom_from_instantiate_event
        (SubMsgResponse.mk
          [Event.mk "create_denom" [],
           Event.mk "create_denom"
             [Attribute.mk "new_token_denom" "factory/creator/sub"]]) =
      Except.error "cannot find `new_token_denom` attribute" :=
  ⟨rfl, rfl⟩

/-- C3 (amended): the parser keys on the FIRST `create_denom` event. With
no `create_denom` event it fails with the missing-event error; given the
first `create_denom` event, it fails with the missing-attribute error
when that event has no `new_token_denom` attribute, and returns the value
of that event's first `new_token_denom` attribute otherwise. -/
theorem parse_ack_characterization (resp : SubMsgResponse) :
    ((∀ e ∈ resp.events, e.ty ≠ "create_denom") →
      parse_osmosis_denom_from_instantiate_event resp =
        Except.error "cannot find `create_denom` event")
    ∧ (∀ pre e post, resp.events = pre ++ e :: post → e.ty = "create_denom" →
      (∀ x ∈ pre, x.ty ≠ "create_denom") →
      (((∀ a ∈ e.attributes, a.key ≠ "new_token_denom") →
        parse_osmosis_denom_from_instantiate_event resp =
          Except.error "cannot find `new_token_denom` attribute")
      ∧ (∀ apre a apost, e.attributes = apre ++ a :: apost →
        a.key = "new_token_denom" →
        (∀ x ∈ apre, x.key ≠ "new_token_denom") →
        parse_osmosis_denom_from_instantiate_event resp = Except.ok a.value))) := by
  constructor
  · intro h
    have hnone : resp.events.find? (fun event => event.ty == "create_denom") = none := by
      rw [List.find?_eq_none]
      intro x hx
      simpa using h x hx
    simp only [parse_osmosis_denom_from_instantiate_event, hnone]
  · intro pre e post hev hty hpre
    have hfind :
        resp.events.find? (fun event => event.ty == "create_denom") = some e := by
      rw [hev]
      exact find?_append_first _ pre e post
        (fun y hy => by simpa using hpre y hy) (by simpa using hty)
    constructor
    · intro hattr
      have hnone :
          e.attributes.find? (fun attr => attr.key == "new_token_denom") = none := by
        rw [List.find?_eq_none]
        intro x hx
        simpa using hattr x hx
      simp only [parse_osmosis_denom_from_instantiate_event, hfind, hnone]
    · intro apre a apost hattrs hkey hapre
      have hfinda :
          e.attributes.find? (fun attr => attr.key == "new_token_denom") = some a := by
        rw [hattrs]
        exact find?_append_first _ apre a apost
          (fun y hy => by simpa using hapre y hy) (by simpa using hkey)
      simp only [parse_osmosis_denom_from_instantiate_event, hfind, hfinda]

/-- C3 witness: the characterization applied to a concrete
acknowledgment — an unrelated event followed by a `create_denom` event
whose attributes hold an unrelated key and then `new_token_denom` —
extracting the denom value. -/
theorem parse_ack_characterization_witness :
    parse_osmosis_denom_from_instantiate_event
      (SubMsgResponse.mk
        [Event.mk "transfer" [],
         Event.mk "create_denom"
           [Attribute.mk "creator" "creator_addr",
            Attribute.mk "new_token_denom" "factory/creator_addr/sub"]]) =
      Except.ok "factory/creator_addr/sub" :=
  (parse_ack_characterization
      (SubMsgResponse.mk
        [Event.mk "transfer" [],
         Event.mk "create_denom"
           [Attribute.mk "creator" "creator_addr",
            Attribute.mk "new_token_denom" "factory/creator_addr/sub"]])).2
    [Event.mk "transfer" []]
    (Event.mk "create_denom"
      [Attribute.mk "creator" "creator_addr",
       Attribute.mk "new_token_denom" "factory/creator_addr/sub"])
    [] rfl rfl (by decide)
    |>.2 [Attribute.mk "creator" "creator_addr"]
      (Attribute.mk "new_token_denom" "factory/creator_addr/sub")
      [] rfl rfl (by decide)

/-- C10 counterexample: an acknowledgment with two `create_denom` events
where the first lacks the `new_token_denom` attribute: the claim says the
parser never errors with more than one `create_denom` event present, but
it errors here. -/
theorem parse_ack_duplicate_events_counterexample :
    ((SubMsgResponse.mk
        [Event.mk "create_denom" [Attribute.mk "creator" "creator_addr"],
         Event.mk "create_denom"
           [Attribute.mk "new_token_denom" "factory/creator_addr/sub"]]).events.countP
      (fun e => e.ty == "create_denom") = 2)
    ∧ (parse_osmosis_denom_from_instantiate_event
        (SubMsgResponse.mk
          [Event.mk "create_denom" [Attribute.mk "creator" "creator_addr"],
           Event.mk "create_denom"
             [Attribute.mk "new_token_denom" "factory/creator_addr/sub"]])).isOk
      = false :=
  ⟨rfl, rfl⟩

/-- C10 (amended): when the acknowledgment holds several `create_denom`
events and/or the first of them holds several `new_token_denom`
attributes, the parser returns the value of the first matching attribute
within the first matching event, ignoring every later duplicate —
provided that first `create_denom` event does carry the attribute — and
does not error in that case. -/
theorem parse_ack_first_match_duplicates (pre : List Event)
    (attrsPre : List Attribute) (a : Attribute) (attrsPost : List Attribute)
    (post : List Event) (hpre : ∀ x ∈ pre, x.ty ≠ "create_denom")
    (hattrsPre : ∀ x ∈ attrsPre, x.key ≠ "new_token_denom")
    (ha : a.key = "new_token_denom") :
    parse_osmosis_denom_from_instantiate_event
      (SubMsgResponse.mk
        (pre ++ Event.mk "create_denom" (attrsPre ++ a :: attrsPost) :: post)) =
      Except.ok a.value := by
  have hfind :
      (pre ++ Event.mk "create_denom" (attrsPre ++ a :: attrsPost) :: post).find?
        (fun event => event.ty == "create_denom") =
        some (Event.mk "create_denom" (attrsPre ++ a :: attrsPost)) :=
    find?_append_first _ pre _ post
      (fun y hy => by simpa using hpre y hy) (by simp)
  have hfinda :
      (attrsPre ++ a :: attrsPost).find?
        (fun attr => attr.key == "new_token_denom") = some a :=
    find?_append_first _ attrsPre a attrsPost
      (fun y hy => by simpa using hattrsPre y hy) (by simpa using ha)
  simp only [parse_osmosis_denom_from_instantiate_event, hfind, hfinda]

/-- C10 witness: two `create_denom` events, the first with a duplicate
`new_token_denom` attribute: the parser returns the first attribute of
the first event and ignores the later duplicates. -/
theorem parse_ack_first_match_duplicates_witness :
    parse_osmosis_denom_from_instantiate_event
      (SubMsgResponse.mk
        [Event.mk "wasm" [],
         Event.mk "create_denom"
           [Attribute.mk "creator" "creator_addr",
            Attribute.mk "new_token_denom" "factory/creator_addr/first",
            Attribute.mk "new_token_denom" "factory/creator_addr/dup"],
         Event.mk "create_denom"
           [Attribute.mk "new_token_denom" "factory/creator_addr/later"]]) =
      Except.ok "factory/creator_addr/first" :=
  parse_ack_first_match_duplicates
    [Event.mk "wasm" []]
    [Attribute.mk "creator" "creator_addr"]
    (Attribute.mk "new_token_denom" "factory/creator_addr/first")
    [Attribute.mk "new_token_denom" "factory/creator_addr/dup"]
    [Event.mk "create_denom"
      [Attribute.mk "new_token_denom" "factory/creator_addr/later"]]
    (by decide) (by decide) rfl

/-- C9: every coin in every descriptor emitted by `transfer`, `mint` and
`burn` carries exactly the token's own denom, and in `mint` the
module-mint instruction's amount is exactly the (decimal rendering of
the) amount of the forwarding bank send — the amount forwarded equals the
amount minted. -/
theorem emitted_coins_consistent (d : OsmosisDenom)
    (sender recipient to_address : String) (amount : Nat) :
    (∀ r, OsmosisDenom.transfer d to_address amount = Except.ok r →
      ∀ m ∈ r.messages, ∀ dn ∈ coinDenoms m, dn = d.denom)
    ∧ (∀ r, OsmosisDenom.mint d sender recipient amount = Except.ok r →
      (∀ m ∈ r.messages, ∀ dn ∈ coinDenoms m, dn = d.denom)
      ∧ mintInstructionAmounts r = (bankSendAmounts r).map toString)
    ∧ (∀ r, OsmosisDenom.burn d sender amount = Except.ok r →
      ∀ m ∈ r.messages, ∀ dn ∈ coinDenoms m, dn = d.denom) := by
  refine ⟨?_, ?_, ?_⟩
  · intro r hr
    have hr2 := Except.ok.inj hr
    subst hr2
    intro m hm dn hdn
    simp only [OsmosisDenom.transfer, List.mem_singleton] at hm
    subst hm
    simpa [coinDenoms] using hdn
  · intro r hr
    have hr2 := Except.ok.inj hr
    subst hr2
    constructor
    · intro m hm dn hdn
      simp only [OsmosisDenom.mint, List.mem_cons, List.mem_singleton,
        List.not_mem_nil, or_false] at hm
      rcases hm with hm | hm <;>
        · subst hm
          simpa [coinDenoms] using hdn
    · simp [OsmosisDenom.mint, mintInstructionAmounts, bankSendAmounts]
  · intro r hr
    have hr2 := Except.ok.inj hr
    subst hr2
    intro m hm dn hdn
    simp only [OsmosisDenom.burn, List.mem_singleton] at hm
    subst hm
    simpa [coinDenoms] using hdn

/-- C9 witness: the mint conjunct applied at a concrete denom, sender,
recipient and amount. -/
theorem emitted_coins_consistent_witness :
    (∀ m ∈ (Response.mk
        [CosmosMsg.Stargate osmosisTypeURLMint
          (StargatePayload.mint
            (MsgMint.mk
              (some (CoinMsg.mk "factory/creator/sub" (toString (5 : Nat))))
              "sender_addr")),
         CosmosMsg.Bank
           (BankMsg.Send "recipient_addr"
             [Coin.mk "factory/creator/sub" 5])]).messages,
      ∀ dn ∈ coinDenoms m, dn = "factory/creator/sub")
    ∧ mintInstructionAmounts (Response.mk
        [CosmosMsg.Stargate osmosisTypeURLMint
          (StargatePayload.mint
            (MsgMint.mk
              (some (CoinMsg.mk "factory/creator/sub" (toString (5 : Nat))))
              "sender_addr")),
         CosmosMsg.Bank
           (BankMsg.Send "recipient_addr"
             [Coin.mk "factory/creator/sub" 5])]) =
      (bankSendAmounts (Response.mk
        [CosmosMsg.Stargate osmosisTypeURLMint
          (StargatePayload.mint
            (MsgMint.mk
              (some (CoinMsg.mk "factory/creator/sub" (toString (5 : Nat))))
              "sender_addr")),
         CosmosMsg.Bank
           (BankMsg.Send "recipient_addr"
             [Coin.mk "factory/creator/sub" 5])])).map toString :=
  (emitted_coins_consistent (OsmosisDenom.mk "factory/creator/sub")
    "sender_addr" "recipient_addr" "to_addr" 5).2.1 _ rfl

end CwToken
